import Mathlib

/-!
# Verification of the signal-detection and confidence-aggregation pipeline

Shallow embedding, over exact rational arithmetic, of the core analysis
functions of the repository:

* `Operator`  — the manipulation ("operator game") detector,
* `MTF`       — the multi-timeframe aggregation engine,
* `SMC`       — the smart-money-concepts structure detector,
* `TA`        — candlestick / chart pattern utilities,
* `AIEngine`  — the confidence engine fusing all component scores.

JavaScript `number` arithmetic is modelled by `ℚ` (exact arithmetic);
`Math.round` is modelled by `jsRound` (round half toward positive
infinity, the JS semantics).  The volatility helper uses `Math.log` and
`Math.sqrt`, so it alone is modelled over `ℝ`.  Presentational string
fields (`description`, `reasoning`, heatmap colors) carry no analysed
data and are omitted from the records.
-/

namespace IndianMarket

/-- JS `Math.round`: round half toward `+∞`. -/
def jsRound (q : ℚ) : ℤ := ⌊q + 1 / 2⌋

/-- JS `Math.round` on a real argument (used where the source mixes in
`Math.log` / `Math.sqrt` results). -/
noncomputable def jsRoundR (x : ℝ) : ℤ := ⌊x + 1 / 2⌋

/-- `Math.max(...list)` for a list that is nonempty at every call site
(JS returns `-Infinity` on an empty list; all embedded call sites pass
nonempty lists, and we return `0` there). -/
def listMax : List ℚ → ℚ
  | [] => 0
  | h :: t => t.foldl max h

/-- `Math.min(...list)`, same conventions as `listMax`. -/
def listMin : List ℚ → ℚ
  | [] => 0
  | h :: t => t.foldl min h

/-- `list.slice(-n)`: the last `n` elements (all of them when shorter). -/
def takeLast (n : ℕ) (l : List α) : List α := l.drop (l.length - n)

/-- One OHLCV bar (the `CandleData` interface; the TS field `open` is a
Lean keyword, hence `open_`). -/
structure Candle where
  open_ : ℚ
  high : ℚ
  low : ℚ
  close : ℚ
  volume : ℚ
  timestamp : ℚ
  deriving DecidableEq, Repr

instance : Inhabited Candle := ⟨⟨0, 0, 0, 0, 0, 0⟩⟩

/-- Indexing `candles[i]`; every embedded call site is in range. -/
def cget (l : List Candle) (i : ℕ) : Candle := l.getD i default

/-- `candle.timestamp || i` (JS falsy fallback for a zero/absent stamp). -/
def tsOr (t : ℚ) (i : ℕ) : ℚ := if t = 0 then (i : ℚ) else t

inductive Direction | BULLISH | BEARISH | NEUTRAL
  deriving DecidableEq, Repr, Fintype

/-- The two-valued `'BULLISH' | 'BEARISH'` union used by SMC events. -/
inductive Dir2 | BULLISH | BEARISH
  deriving DecidableEq, Repr, Fintype

inductive Strength | STRONG | MODERATE | WEAK
  deriving DecidableEq, Repr, Fintype

inductive Confidence3 | HIGH | MEDIUM | LOW
  deriving DecidableEq, Repr, Fintype

inductive OpAction | BUY | SELL | AVOID | WAIT
  deriving DecidableEq, Repr, Fintype

inductive OpType
  | ACCUMULATION | DISTRIBUTION | BULL_TRAP | BEAR_TRAP | PUMP_DUMP
  | BREAKOUT_FAKE | SQUEEZE
  deriving DecidableEq, Repr, Fintype

inductive MarketStructure | BULLISH | BEARISH | RANGING
  deriving DecidableEq, Repr, Fintype

inductive BOSType | BULLISH_BOS | BEARISH_BOS
  deriving DecidableEq, Repr, Fintype

inductive CHOCHType | BULLISH_CHOCH | BEARISH_CHOCH
  deriving DecidableEq, Repr, Fintype

inductive ZoneType | SUPPLY | DEMAND
  deriving DecidableEq, Repr, Fintype

inductive TrendClass | STRONG_BULLISH | BULLISH | NEUTRAL | BEARISH | STRONG_BEARISH
  deriving DecidableEq, Repr, Fintype

inductive VolLevel | HIGH | NORMAL | LOW
  deriving DecidableEq, Repr, Fintype

inductive Recommendation | STRONG_BUY | BUY | HOLD | SELL | STRONG_SELL
  deriving DecidableEq, Repr, Fintype

inductive SignalStrength | VERY_STRONG | STRONG | MODERATE | WEAK | VERY_WEAK
  deriving DecidableEq, Repr, Fintype

inductive TimeHorizon | SCALP | INTRADAY | SWING | POSITIONAL
  deriving DecidableEq, Repr, Fintype

/-- The six analysed resolutions. -/
inductive TF | m1 | m5 | m15 | h1 | h4 | d1
  deriving DecidableEq, Repr, Fintype

/-- `OperatorSignal` (the `description` / `indicators` strings are
presentational and omitted). -/
structure OperatorSignal where
  type : OpType
  confidence : Confidence3
  action : OpAction
  deriving DecidableEq, Repr

namespace Operator

/-- `detectAccumulation`. -/
def detectAccumulation (candles : List Candle) : Option OperatorSignal :=
  let recent := takeLast 10 candles
  let avgVolume := (recent.map (·.volume)).sum / (recent.length : ℚ)
  let lowVolumeGreenCandles := recent.countP (fun c =>
    decide (c.close > c.open_) && decide (c.volume < avgVolume * 0.8))
  let priceRange := (recent.map (fun c => |c.high - c.low|)).sum
  let lastThreeVolumes := (takeLast 3 recent).map (·.volume)
  let volumeIncreasing := lastThreeVolumes.getD 2 0 > lastThreeVolumes.getD 0 0 * 1.2
  let avgPriceRange := priceRange / (recent.length : ℚ)
  let lastC := recent.getLast?.getD default
  let currentRange := |lastC.high - lastC.low|
  let tightRange := currentRange < avgPriceRange * 0.8
  if lowVolumeGreenCandles ≥ 5 ∧ tightRange ∧ volumeIncreasing then
    some ⟨.ACCUMULATION, .HIGH, .BUY⟩
  else none

/-- `detectDistribution`. -/
def detectDistribution (candles : List Candle) : Option OperatorSignal :=
  let recent := takeLast 10 candles
  let avgVolume := (recent.map (·.volume)).sum / (recent.length : ℚ)
  let highVolumeRedCandles := recent.countP (fun c =>
    decide (c.close < c.open_) && decide (c.volume > avgVolume * 1.3))
  let upperShadows := recent.countP (fun c =>
    decide (c.high - max c.open_ c.close > |c.close - c.open_| * 1.5))
  let highs : List ℚ := (takeLast 5 recent).map (·.high)
  let priceStalling : Bool :=
    decide (highs.getD 4 0 < highs.getD 2 0) && decide (highs.getD 3 0 < highs.getD 1 0)
  if highVolumeRedCandles ≥ 3 ∧ upperShadows ≥ 3 ∧ priceStalling then
    some ⟨.DISTRIBUTION, .HIGH, .SELL⟩
  else none

/-- `detectBullTrap`.  The `forEach` accumulation of the two mutable
flags is modelled by a fold over the index-paired window. -/
def detectBullTrap (candles : List Candle) : Option OperatorSignal :=
  if candles.length < 15 then none
  else
    let recent := takeLast 15 candles
    let last5 := takeLast 5 recent
    let previous10 := recent.take 10
    let resistance := listMax (previous10.map (·.high))
    let flags := last5.enum.foldl (fun (st : Bool × Bool) p =>
      let broke := st.1 || decide (p.2.high > resistance * 1.01)
      let fell := st.2 || (broke && decide (p.1 > 1) && decide (p.2.close < resistance * 0.99))
      (broke, fell)) (false, false)
    let lastCandle := last5.getLast?.getD default
    let highVolume :=
      lastCandle.volume > (recent.map (·.volume)).sum / (recent.length : ℚ) * 1.5
    if flags.1 ∧ flags.2 ∧ highVolume then some ⟨.BULL_TRAP, .HIGH, .AVOID⟩
    else none

/-- `detectBearTrap`. -/
def detectBearTrap (candles : List Candle) : Option OperatorSignal :=
  if candles.length < 15 then none
  else
    let recent := takeLast 15 candles
    let last5 := takeLast 5 recent
    let previous10 := recent.take 10
    let support := listMin (previous10.map (·.low))
    let flags := last5.enum.foldl (fun (st : Bool × Bool) p =>
      let broke := st.1 || decide (p.2.low < support * 0.99)
      let recovered := st.2 || (broke && decide (p.1 > 1) && decide (p.2.close > support * 1.01))
      (broke, recovered)) (false, false)
    let lastCandle := last5.getLast?.getD default
    let highVolume :=
      lastCandle.volume > (recent.map (·.volume)).sum / (recent.length : ℚ) * 1.5
    if flags.1 ∧ flags.2 ∧ highVolume then some ⟨.BEAR_TRAP, .HIGH, .BUY⟩
    else none

/-- `detectPumpAndDump`.  The mutable `maxGain` / `maxGainIdx` pair is a
fold; `recent.length - 2` uses truncated subtraction, which agrees with
the JS expression on the guarded (≥ 10 bar) inputs. -/
def detectPumpAndDump (candles : List Candle) : Option OperatorSignal :=
  let recent := takeLast 10 candles
  let mg := recent.enum.foldl (fun (st : ℚ × ℕ) p =>
    if p.1 > 0 then
      let gain := (p.2.high - (cget recent (p.1 - 1)).close) / (cget recent (p.1 - 1)).close * 100
      if gain > st.1 then (gain, p.1) else st
    else st) (0, 0)
  let maxGain := mg.1
  let maxGainIdx := mg.2
  let crashed : Bool :=
    if maxGainIdx < recent.length - 2 then
      let afterSpike := recent.drop (maxGainIdx + 1)
      let dropSum := afterSpike.enum.foldl (fun (acc : ℚ) p =>
        if p.1 > 0 then
          acc + ((cget afterSpike (p.1 - 1)).close - p.2.close)
            / (cget afterSpike (p.1 - 1)).close * 100
        else acc) 0
      decide (dropSum / ((afterSpike.length : ℚ) - 1) > 2)
    else false
  if maxGain > 5 ∧ crashed then some ⟨.PUMP_DUMP, .HIGH, .AVOID⟩
  else none

/-- `detectFakeBreakout`. -/
def detectFakeBreakout (candles : List Candle) : Option OperatorSignal :=
  if candles.length < 20 then none
  else
    let recent := takeLast 20 candles
    let last3 := takeLast 3 recent
    let previous := recent.take (recent.length - 3)
    let avgVolume := (previous.map (·.volume)).sum / (previous.length : ℚ)
    let recentVolume := (last3.map (·.volume)).sum / (last3.length : ℚ)
    let lowVolumeBreakout := recentVolume < avgVolume * 0.7
    let resistance := listMax (previous.map (·.high))
    let brokeResistance := last3.any (fun c => decide (c.high > resistance * 1.02))
    if brokeResistance ∧ lowVolumeBreakout then some ⟨.BREAKOUT_FAKE, .MEDIUM, .WAIT⟩
    else none

/-- `detectShortSqueeze`. -/
def detectShortSqueeze (candles : List Candle) : Option OperatorSignal :=
  let recent := takeLast 10 candles
  let avgVolume := (recent.map (·.volume)).sum / (recent.length : ℚ)
  let first5 := recent.take 5
  let fallPercent := ((cget first5 0).close - (cget first5 4).close) / (cget first5 0).close * 100
  let last3 := takeLast 3 recent
  let risePercent := ((cget last3 2).close - (cget last3 0).open_) / (cget last3 0).open_ * 100
  let volumeSpike := last3.any (fun c => decide (c.volume > avgVolume * 2))
  if fallPercent > 5 ∧ risePercent > 4 ∧ volumeSpike then some ⟨.SQUEEZE, .HIGH, .BUY⟩
  else none

/-- `detectOperatorGame`: the guarded first-match chain over the seven
detectors, in source order. -/
def detectOperatorGame (candles : List Candle) : Option OperatorSignal :=
  if candles.length < 10 then none
  else
    detectAccumulation candles <|> detectDistribution candles <|>
      detectBullTrap candles <|> detectBearTrap candles <|>
      detectPumpAndDump candles <|> detectFakeBreakout candles <|>
      detectShortSqueeze candles

/-- The seven detectors in the priority order written in the source. -/
def operatorDetectors : List (List Candle → Option OperatorSignal) :=
  [detectAccumulation, detectDistribution, detectBullTrap, detectBearTrap,
   detectPumpAndDump, detectFakeBreakout, detectShortSqueeze]

/-- First verdict of an ordered detector list (spec reading of §4.3). -/
def firstVerdict (ds : List (List Candle → Option OperatorSignal))
    (candles : List Candle) : Option OperatorSignal :=
  match ds with
  | [] => none
  | d :: rest =>
    match d candles with
    | some r => some r
    | none => firstVerdict rest candles

end Operator

/-- Per-resolution snapshot (`TimeframeSignal`). -/
structure TimeframeSignal where
  timeframe : TF
  trend : TrendClass
  score : ℚ
  rsi : ℚ
  macd : Direction
  ema : Direction
  priceAction : Direction
  volume : VolLevel
  confidence : ℚ
  deriving DecidableEq, Repr

/-- The six-resolution record (`timeframes` object; TS keys `'1m'` …
`'1D'` are not valid Lean names, hence the `tf` prefix). -/
structure MTFTimeframes where
  tf1m : TimeframeSignal
  tf5m : TimeframeSignal
  tf15m : TimeframeSignal
  tf1H : TimeframeSignal
  tf4H : TimeframeSignal
  tf1D : TimeframeSignal
  deriving DecidableEq, Repr

/-- `MTFAnalysis` (symbol, heatmap, reasoning and key levels are
presentational / out of the claims' scope and omitted). -/
structure MTFAnalysis where
  currentPrice : ℚ
  timeframes : MTFTimeframes
  overallTrend : TrendClass
  confidenceScore : ℚ
  alignment : ℚ
  recommendation : Recommendation
  deriving DecidableEq, Repr

namespace MTF

/-- `TIMEFRAME_WEIGHTS`. -/
def TIMEFRAME_WEIGHTS : TF → ℚ
  | .m1 => 0.03
  | .m5 => 0.07
  | .m15 => 0.15
  | .h1 => 0.20
  | .h4 => 0.25
  | .d1 => 0.30

/-- The aggregate of one nonempty group `first :: rest` of consecutive
bars, as built inside the `aggregateTo4H` loop body: first open, extreme
high/low, last close, summed volume, first timestamp. -/
def aggChunk (first : Candle) (rest : List Candle) : Candle :=
  { open_ := first.open_
    high := (rest.map (·.high)).foldl max first.high
    low := (rest.map (·.low)).foldl min first.low
    close := (rest.getLast?.getD first).close
    volume := first.volume + (rest.map (·.volume)).sum
    timestamp := first.timestamp }

/-- `aggregateTo4H`: the `i += 4` loop over `slice(i, i + 4)` chunks,
written as structural recursion on groups of four (the final group may
be shorter, exactly as in the source loop). -/
def aggregateTo4H : List Candle → List Candle
  | [] => []
  | [a] => [aggChunk a []]
  | [a, b] => [aggChunk a [b]]
  | [a, b, c] => [aggChunk a [b, c]]
  | a :: b :: c :: d :: rest => aggChunk a [b, c, d] :: aggregateTo4H rest

/-- The aggregate of one (possibly empty) group, for stating the group
decomposition of `aggregateTo4H`. -/
def aggGroup : List Candle → Option Candle
  | [] => none
  | first :: rest => some (aggChunk first rest)

/-- `getDefaultTimeframeSignal`. -/
def getDefaultTimeframeSignal (timeframe : TF) : TimeframeSignal :=
  { timeframe := timeframe
    trend := .NEUTRAL
    score := 0
    rsi := 50
    macd := .NEUTRAL
    ema := .NEUTRAL
    priceAction := .NEUTRAL
    volume := .NORMAL
    confidence := 0 }

/-- The `Object.values(timeframes)` traversal order (object literal
insertion order `'1m', '5m', '15m', '1H', '4H', '1D'`). -/
def trendsOf (tfs : MTFTimeframes) : List TrendClass :=
  [tfs.tf1m.trend, tfs.tf5m.trend, tfs.tf15m.trend,
   tfs.tf1H.trend, tfs.tf4H.trend, tfs.tf1D.trend]

/-- `calculateAlignment`. -/
def calculateAlignment (tfs : MTFTimeframes) : ℤ :=
  let trends := trendsOf tfs
  let bullish := (trends.filter (fun t =>
    decide (t = .BULLISH) || decide (t = .STRONG_BULLISH))).length
  let bearish := (trends.filter (fun t =>
    decide (t = .BEARISH) || decide (t = .STRONG_BEARISH))).length
  let neutral := (trends.filter (fun t => decide (t = .NEUTRAL))).length
  let maxAlignment := max (max bullish bearish) neutral
  jsRound ((maxAlignment : ℚ) / (trends.length : ℚ) * 100)

end MTF

/-- `LiquiditySweep` (description omitted). -/
structure LiquiditySweep where
  type : Dir2
  price : ℚ
  timestamp : ℚ
  confidence : Confidence3
  deriving DecidableEq, Repr

/-- `OrderBlock` (description omitted). -/
structure OrderBlock where
  type : Dir2
  high : ℚ
  low : ℚ
  timestamp : ℚ
  strength : Strength
  deriving DecidableEq, Repr

/-- `FairValueGap` (description omitted). -/
structure FairValueGap where
  type : Dir2
  top : ℚ
  bottom : ℚ
  timestamp : ℚ
  filled : Bool
  deriving DecidableEq, Repr

/-- `BreakOfStructure` (description omitted). -/
structure BreakOfStructure where
  type : BOSType
  price : ℚ
  timestamp : ℚ
  previousStructure : ℚ
  deriving DecidableEq, Repr

/-- `ChangeOfCharacter` (description omitted). -/
structure ChangeOfCharacter where
  type : CHOCHType
  price : ℚ
  timestamp : ℚ
  significance : Confidence3
  deriving DecidableEq, Repr

/-- `InstitutionalCandle` (description omitted). -/
structure InstitutionalCandle where
  index : ℕ
  type : Dir2
  volume : ℚ
  bodySize : ℚ
  deriving DecidableEq, Repr

/-- `SupplyDemandZone` (description omitted). -/
structure SupplyDemandZone where
  type : ZoneType
  top : ℚ
  bottom : ℚ
  strength : ℚ
  touches : ℕ
  deriving DecidableEq, Repr

/-- `SMCAnalysis` (the `reasoning` string list is presentational and
omitted). -/
structure SMCAnalysis where
  liquiditySweeps : List LiquiditySweep
  orderBlocks : List OrderBlock
  fairValueGaps : List FairValueGap
  marketStructure : MarketStructure
  bos : Option BreakOfStructure
  choch : Option ChangeOfCharacter
  institutionalCandles : List InstitutionalCandle
  supplyDemandZones : List SupplyDemandZone
  overallConfidence : ℤ
  recommendation : Recommendation
  deriving DecidableEq, Repr

namespace SMC

/-- `detectLiquiditySweeps`: loop `i` from `lookback` to `length - 2`,
pushing a bullish and/or bearish sweep per index, then `slice(-5)`. -/
def detectLiquiditySweeps (candles : List Candle) : List LiquiditySweep :=
  let lookback := 20
  let idxs := (List.range (candles.length - 1)).drop lookback
  let sweeps := idxs.flatMap (fun i =>
    let current := cget candles i
    let next := cget candles (i + 1)
    let previous := (candles.drop (i - lookback)).take lookback
    let swingHigh := listMax (previous.map (·.high))
    let swingLow := listMin (previous.map (·.low))
    let bullish : List LiquiditySweep :=
      if current.low < swingLow ∧ next.close > current.open_ ∧ next.close > swingLow then
        [⟨.BULLISH, current.low, tsOr current.timestamp i,
          if next.close > current.open_ * 1.01 then .HIGH else .MEDIUM⟩]
      else []
    let bearish : List LiquiditySweep :=
      if current.high > swingHigh ∧ next.close < current.open_ ∧ next.close < swingHigh then
        [⟨.BEARISH, current.high, tsOr current.timestamp i,
          if next.close < current.open_ * 0.99 then .HIGH else .MEDIUM⟩]
      else []
    bullish ++ bearish)
  takeLast 5 sweeps

/-- `detectOrderBlocks`: loop `i` from 1 to `length - 4`, then
`slice(-3)`. -/
def detectOrderBlocks (candles : List Candle) : List OrderBlock :=
  let idxs := (List.range (candles.length - 3)).drop 1
  let obs := idxs.flatMap (fun i =>
    let current := cget candles i
    let next := cget candles (i + 1)
    let nextTwo := cget candles (i + 2)
    let nextThree := cget candles (i + 3)
    let bullishOB : List OrderBlock :=
      if current.close < current.open_ ∧ next.close > next.open_ ∧
          nextTwo.close > nextTwo.open_ ∧ nextThree.close > current.high then
        [⟨.BULLISH, current.high, current.low, tsOr current.timestamp i,
          if nextThree.close > current.high * 1.03 then .STRONG
          else if nextThree.close > current.high * 1.015 then .MODERATE
          else .WEAK⟩]
      else []
    let bearishOB : List OrderBlock :=
      if current.close > current.open_ ∧ next.close < next.open_ ∧
          nextTwo.close < nextTwo.open_ ∧ nextThree.close < current.low then
        [⟨.BEARISH, current.high, current.low, tsOr current.timestamp i,
          if nextThree.close < current.low * 0.97 then .STRONG
          else if nextThree.close < current.low * 0.985 then .MODERATE
          else .WEAK⟩]
      else []
    bullishOB ++ bearishOB)
  takeLast 3 obs

/-- `detectFairValueGaps`: loop `i` from 1 to `length - 2`, then
`slice(-5)`. -/
def detectFairValueGaps (candles : List Candle) : List FairValueGap :=
  let idxs := (List.range (candles.length - 1)).drop 1
  let fvgs := idxs.flatMap (fun i =>
    let prev := cget candles (i - 1)
    let current := cget candles i
    let next := cget candles (i + 1)
    let bullish : List FairValueGap :=
      if next.low > prev.high ∧ current.close > current.open_ ∧
          (next.low - prev.high) / prev.high * 100 > 0.3 then
        [⟨.BULLISH, next.low, prev.high, tsOr current.timestamp i, false⟩]
      else []
    let bearish : List FairValueGap :=
      if next.high < prev.low ∧ current.close < current.open_ ∧
          (prev.low - next.high) / prev.low * 100 > 0.3 then
        [⟨.BEARISH, prev.low, next.high, tsOr current.timestamp i, false⟩]
      else []
    bullish ++ bearish)
  takeLast 5 fvgs

/-- `determineMarketStructure`: two-bar-lag comparisons over the last 20
bars. -/
def determineMarketStructure (candles : List Candle) : MarketStructure :=
  let recent := takeLast 20 candles
  let highs : List ℚ := recent.map (·.high)
  let lows : List ℚ := recent.map (·.low)
  let idxs := (List.range recent.length).drop 2
  let higherHighs := idxs.countP (fun i => decide (highs.getD i 0 > highs.getD (i - 2) 0))
  let higherLows := idxs.countP (fun i => decide (lows.getD i 0 > lows.getD (i - 2) 0))
  let lowerHighs := idxs.countP (fun i => decide (highs.getD i 0 < highs.getD (i - 2) 0))
  let lowerLows := idxs.countP (fun i => decide (lows.getD i 0 < lows.getD (i - 2) 0))
  if higherHighs ≥ 8 ∧ higherLows ≥ 8 then .BULLISH
  else if lowerHighs ≥ 8 ∧ lowerLows ≥ 8 then .BEARISH
  else .RANGING

/-- `detectBreakOfStructure`. -/
def detectBreakOfStructure (candles : List Candle) : Option BreakOfStructure :=
  let recent := takeLast 30 candles
  let current := candles.getLast?.getD default
  let base := recent.take (recent.length - 5)
  let swingHigh := listMax (base.map (·.high))
  let swingLow := listMin (base.map (·.low))
  if current.close > swingHigh then
    some ⟨.BULLISH_BOS, current.close, tsOr current.timestamp (candles.length - 1), swingHigh⟩
  else if current.close < swingLow then
    some ⟨.BEARISH_BOS, current.close, tsOr current.timestamp (candles.length - 1), swingLow⟩
  else none

/-- `detectChangeOfCharacter`: compares the structure of
`slice(-40, -20)` with the structure of the last 20 bars. -/
def detectChangeOfCharacter (candles : List Candle) : Option ChangeOfCharacter :=
  let recent := takeLast 20 candles
  let priorStructure := determineMarketStructure ((candles.drop (candles.length - 40)).take 20)
  let currentStructure := determineMarketStructure recent
  let lastC := recent.getLast?.getD default
  if priorStructure = .BULLISH ∧ currentStructure = .BEARISH then
    some ⟨.BEARISH_CHOCH, lastC.close, tsOr lastC.timestamp (candles.length - 1), .HIGH⟩
  else if priorStructure = .BEARISH ∧ currentStructure = .BULLISH then
    some ⟨.BULLISH_CHOCH, lastC.close, tsOr lastC.timestamp (candles.length - 1), .HIGH⟩
  else none

/-- `detectInstitutionalCandles`: high volume and large body relative to
range, then `slice(-5)`. -/
def detectInstitutionalCandles (candles : List Candle) : List InstitutionalCandle :=
  let avgVolume := (candles.map (·.volume)).sum / (candles.length : ℚ)
  let inst := candles.enum.flatMap (fun p =>
    let body := |p.2.close - p.2.open_|
    let range := p.2.high - p.2.low
    let bodyRatio := body / range
    if p.2.volume > avgVolume * 2 ∧ bodyRatio > 0.7 then
      [⟨p.1, if p.2.close > p.2.open_ then .BULLISH else .BEARISH, p.2.volume, body⟩]
    else [])
  takeLast 5 inst

/-- `identifySupplyDemandZones`: loop `i` from 50 to `length - 11`, then
`slice(-3)` (the unused source local `zoneRange` is dropped). -/
def identifySupplyDemandZones (candles : List Candle) : List SupplyDemandZone :=
  let lookback := 50
  let idxs := (List.range (candles.length - 10)).drop lookback
  let zones := idxs.flatMap (fun i =>
    let zone := (candles.drop (i - 5)).take 6
    let after := (candles.drop (i + 1)).take 10
    let zoneHigh := listMax (zone.map (·.high))
    let zoneLow := listMin (zone.map (·.low))
    let demand : List SupplyDemandZone :=
      let rallyCount := (after.filter (fun c => decide (c.close > zoneHigh * 1.02))).length
      if rallyCount ≥ 5 then
        let touches := ((candles.drop (i + 11)).filter (fun c =>
          decide (c.low ≤ zoneHigh) && decide (c.low ≥ zoneLow))).length
        [⟨.DEMAND, zoneHigh, zoneLow,
          min 100 ((rallyCount : ℚ) * 10 + (touches : ℚ) * 5), touches⟩]
      else []
    let supply : List SupplyDemandZone :=
      let dropCount := (after.filter (fun c => decide (c.close < zoneLow * 0.98))).length
      if dropCount ≥ 5 then
        let touches := ((candles.drop (i + 11)).filter (fun c =>
          decide (c.high ≥ zoneLow) && decide (c.high ≤ zoneHigh))).length
        [⟨.SUPPLY, zoneHigh, zoneLow,
          min 100 ((dropCount : ℚ) * 10 + (touches : ℚ) * 5), touches⟩]
      else []
    demand ++ supply)
  takeLast 3 zones

/-- The bullish accumulator of `calculateSMCScore` (the source builds it
by sequential `+=` into a mutable variable; the sum is written out in
the same order with the same weights). -/
def bullishScoreOf (liquiditySweeps : List LiquiditySweep) (orderBlocks : List OrderBlock)
    (fairValueGaps : List FairValueGap) (marketStructure : MarketStructure)
    (bos : Option BreakOfStructure) (choch : Option ChangeOfCharacter)
    (institutionalCandles : List InstitutionalCandle) : ℚ :=
  ((liquiditySweeps.filter (fun s => decide (s.type = .BULLISH))).length : ℚ) * 15
    + ((orderBlocks.filter (fun ob =>
        decide (ob.type = .BULLISH) && decide (ob.strength = .STRONG))).length : ℚ) * 20
    + ((fairValueGaps.filter (fun fvg => decide (fvg.type = .BULLISH))).length : ℚ) * 10
    + (if marketStructure = .BULLISH then 25 else 0)
    + (match bos with
       | some b => if b.type = .BULLISH_BOS then 20 else 0
       | none => 0)
    + (match choch with
       | some ch => if ch.type = .BULLISH_CHOCH then 25 else 0
       | none => 0)
    + ((institutionalCandles.filter (fun ic => decide (ic.type = .BULLISH))).length : ℚ) * 10

/-- The bearish accumulator of `calculateSMCScore`. -/
def bearishScoreOf (liquiditySweeps : List LiquiditySweep) (orderBlocks : List OrderBlock)
    (fairValueGaps : List FairValueGap) (marketStructure : MarketStructure)
    (bos : Option BreakOfStructure) (choch : Option ChangeOfCharacter)
    (institutionalCandles : List InstitutionalCandle) : ℚ :=
  ((liquiditySweeps.filter (fun s => decide (s.type = .BEARISH))).length : ℚ) * 15
    + ((orderBlocks.filter (fun ob =>
        decide (ob.type = .BEARISH) && decide (ob.strength = .STRONG))).length : ℚ) * 20
    + ((fairValueGaps.filter (fun fvg => decide (fvg.type = .BEARISH))).length : ℚ) * 10
    + (if marketStructure = .BEARISH then 25 else 0)
    + (match bos with
       | some b => if b.type = .BEARISH_BOS then 20 else 0
       | none => 0)
    + (match choch with
       | some ch => if ch.type = .BEARISH_CHOCH then 25 else 0
       | none => 0)
    + ((institutionalCandles.filter (fun ic => decide (ic.type = .BEARISH))).length : ℚ) * 10

/-- The non-presentational part of `calculateSMCScore`'s return value. -/
structure SMCScoreResult where
  confidence : ℤ
  recommendation : Recommendation
  deriving DecidableEq, Repr

/-- `calculateSMCScore` (structure-detector version).  `supplyDemandZones`
is accepted but, as in the source, does not enter the score.  The JS
`(totalScore || 1)` guard is the `if totalScore = 0` branch. -/
def calculateSMCScore (liquiditySweeps : List LiquiditySweep) (orderBlocks : List OrderBlock)
    (fairValueGaps : List FairValueGap) (marketStructure : MarketStructure)
    (bos : Option BreakOfStructure) (choch : Option ChangeOfCharacter)
    (institutionalCandles : List InstitutionalCandle)
    (_supplyDemandZones : List SupplyDemandZone) : SMCScoreResult :=
  let bullishScore := bullishScoreOf liquiditySweeps orderBlocks fairValueGaps
    marketStructure bos choch institutionalCandles
  let bearishScore := bearishScoreOf liquiditySweeps orderBlocks fairValueGaps
    marketStructure bos choch institutionalCandles
  let totalScore := bullishScore + bearishScore
  let confidence := min 100
    (jsRound (max bullishScore bearishScore / (if totalScore = 0 then 1 else totalScore) * 100))
  let recommendation : Recommendation :=
    if bullishScore > bearishScore * 1.5 then .STRONG_BUY
    else if bullishScore > bearishScore then .BUY
    else if bearishScore > bullishScore * 1.5 then .STRONG_SELL
    else if bearishScore > bullishScore then .SELL
    else .HOLD
  ⟨confidence, recommendation⟩

/-- `getDefaultAnalysis`. -/
def getDefaultAnalysis : SMCAnalysis :=
  { liquiditySweeps := []
    orderBlocks := []
    fairValueGaps := []
    marketStructure := .RANGING
    bos := none
    choch := none
    institutionalCandles := []
    supplyDemandZones := []
    overallConfidence := 0
    recommendation := .HOLD }

/-- `analyzeSMC`. -/
def analyzeSMC (candles : List Candle) : SMCAnalysis :=
  if candles.length < 50 then getDefaultAnalysis
  else
    let liquiditySweeps := detectLiquiditySweeps candles
    let orderBlocks := detectOrderBlocks candles
    let fairValueGaps := detectFairValueGaps candles
    let marketStructure := determineMarketStructure candles
    let bos := detectBreakOfStructure candles
    let choch := detectChangeOfCharacter candles
    let institutionalCandles := detectInstitutionalCandles candles
    let supplyDemandZones := identifySupplyDemandZones candles
    let result := calculateSMCScore liquiditySweeps orderBlocks fairValueGaps
      marketStructure bos choch institutionalCandles supplyDemandZones
    { liquiditySweeps := liquiditySweeps
      orderBlocks := orderBlocks
      fairValueGaps := fairValueGaps
      marketStructure := marketStructure
      bos := bos
      choch := choch
      institutionalCandles := institutionalCandles
      supplyDemandZones := supplyDemandZones
      overallConfidence := result.confidence
      recommendation := result.recommendation }

end SMC

/-- `TechnicalSignal` (pattern label kept, description omitted). -/
structure TechnicalSignal where
  pattern : String
  signal : Direction
  strength : Strength
  deriving DecidableEq, Repr

namespace TA

/-- `isBullishEngulfing`. -/
def isBullishEngulfing (prev curr : Candle) : Prop :=
  prev.close < prev.open_ ∧ curr.close > curr.open_ ∧
    curr.open_ < prev.close ∧ curr.close > prev.open_

instance (prev curr : Candle) : Decidable (isBullishEngulfing prev curr) := by
  unfold isBullishEngulfing; infer_instance

/-- `isBearishEngulfing`. -/
def isBearishEngulfing (prev curr : Candle) : Prop :=
  prev.close > prev.open_ ∧ curr.close < curr.open_ ∧
    curr.open_ > prev.close ∧ curr.close < prev.open_

instance (prev curr : Candle) : Decidable (isBearishEngulfing prev curr) := by
  unfold isBearishEngulfing; infer_instance

/-- `isMorningStar`. -/
def isMorningStar (first second third : Candle) : Prop :=
  first.close < first.open_ ∧
    |second.close - second.open_| < |first.close - first.open_| * 0.3 ∧
    (third.close > third.open_ ∧ third.close > (first.open_ + first.close) / 2)

instance (a b c : Candle) : Decidable (isMorningStar a b c) := by
  unfold isMorningStar; infer_instance

/-- `isEveningstar` (source spelling). -/
def isEveningstar (first second third : Candle) : Prop :=
  first.close > first.open_ ∧
    |second.close - second.open_| < |first.close - first.open_| * 0.3 ∧
    (third.close < third.open_ ∧ third.close < (first.open_ + first.close) / 2)

instance (a b c : Candle) : Decidable (isEveningstar a b c) := by
  unfold isEveningstar; infer_instance

/-- `isHammer`. -/
def isHammer (candle : Candle) : Prop :=
  min candle.open_ candle.close - candle.low > |candle.close - candle.open_| * 2 ∧
    candle.high - max candle.open_ candle.close < |candle.close - candle.open_| * 0.5

instance (c : Candle) : Decidable (isHammer c) := by
  unfold isHammer; infer_instance

/-- `isShootingStar`. -/
def isShootingStar (candle : Candle) : Prop :=
  candle.high - max candle.open_ candle.close > |candle.close - candle.open_| * 2 ∧
    min candle.open_ candle.close - candle.low < |candle.close - candle.open_| * 0.5

instance (c : Candle) : Decidable (isShootingStar c) := by
  unfold isShootingStar; infer_instance

/-- `isDoji`. -/
def isDoji (candle : Candle) : Prop :=
  |candle.close - candle.open_| < (candle.high - candle.low) * 0.1

instance (c : Candle) : Decidable (isDoji c) := by
  unfold isDoji; infer_instance

/-- `isPiercingPattern`. -/
def isPiercingPattern (prev curr : Candle) : Prop :=
  prev.close < prev.open_ ∧ curr.close > curr.open_ ∧
    curr.close > (prev.open_ + prev.close) / 2 ∧ curr.close < prev.open_

instance (prev curr : Candle) : Decidable (isPiercingPattern prev curr) := by
  unfold isPiercingPattern; infer_instance

/-- `isDarkCloudCover`. -/
def isDarkCloudCover (prev curr : Candle) : Prop :=
  prev.close > prev.open_ ∧ curr.close < curr.open_ ∧
    curr.close < (prev.open_ + prev.close) / 2 ∧ curr.close > prev.open_

instance (prev curr : Candle) : Decidable (isDarkCloudCover prev curr) := by
  unfold isDarkCloudCover; infer_instance

/-- `detectCandlestickPatterns`: the nine pattern checks, pushed in
source order. -/
def detectCandlestickPatterns (candles : List Candle) : List TechnicalSignal :=
  if candles.length < 3 then []
  else
    let current := cget candles (candles.length - 1)
    let previous := cget candles (candles.length - 2)
    let twoDaysAgo := cget candles (candles.length - 3)
    (if isBullishEngulfing previous current then
      [⟨"Bullish Engulfing", .BULLISH, .STRONG⟩] else [])
    ++ (if isMorningStar twoDaysAgo previous current then
      [⟨"Morning Star", .BULLISH, .STRONG⟩] else [])
    ++ (if isHammer current then
      [⟨"Hammer", .BULLISH, .MODERATE⟩] else [])
    ++ (if isPiercingPattern previous current then
      [⟨"Piercing Pattern", .BULLISH, .MODERATE⟩] else [])
    ++ (if isBearishEngulfing previous current then
      [⟨"Bearish Engulfing", .BEARISH, .STRONG⟩] else [])
    ++ (if isEveningstar twoDaysAgo previous current then
      [⟨"Evening Star", .BEARISH, .STRONG⟩] else [])
    ++ (if isShootingStar current then
      [⟨"Shooting Star", .BEARISH, .MODERATE⟩] else [])
    ++ (if isDarkCloudCover previous current then
      [⟨"Dark Cloud Cover", .BEARISH, .MODERATE⟩] else [])
    ++ (if isDoji current then
      [⟨"Doji", .NEUTRAL, .WEAK⟩] else [])

end TA

/-- `{ score, sentiment }` as passed to the confidence engine (the
`sentiment` string is kept as text, as in the TS parameter type). -/
structure OperatorStrength where
  score : ℚ
  sentiment : String
  deriving DecidableEq, Repr

namespace AIEngine

/-- `COMPONENT_WEIGHTS`. -/
structure ComponentWeights where
  technical : ℚ
  smc : ℚ
  mtf : ℚ
  operator : ℚ
  volume : ℚ
  momentum : ℚ

def COMPONENT_WEIGHTS : ComponentWeights :=
  { technical := 0.15, smc := 0.25, mtf := 0.25,
    operator := 0.20, volume := 0.10, momentum := 0.05 }

/-- `calculateTechnicalScore` (the `macdSignal` parameter is a plain
string in the source). -/
def calculateTechnicalScore (rsi : ℚ) (macdSignal : String)
    (technicalSignals : List TechnicalSignal) : ℚ :=
  let score : ℚ := 50
  let score :=
    if rsi > 70 then score - 15
    else if rsi > 60 then score + 10
    else if rsi > 50 then score + 15
    else if rsi > 40 then score + 10
    else if rsi > 30 then score - 10
    else score + 15
  let score :=
    if macdSignal = "BULLISH" then score + 15
    else if macdSignal = "BEARISH" then score - 15
    else score
  let bullishPatterns := technicalSignals.filter (fun s => decide (s.signal = .BULLISH))
  let bearishPatterns := technicalSignals.filter (fun s => decide (s.signal = .BEARISH))
  let score := bullishPatterns.foldl (fun acc p =>
    if p.strength = .STRONG then acc + 10
    else if p.strength = .MODERATE then acc + 5
    else acc) score
  let score := bearishPatterns.foldl (fun acc p =>
    if p.strength = .STRONG then acc - 10
    else if p.strength = .MODERATE then acc - 5
    else acc) score
  max 0 (min 100 score)

/-- `calculateSMCScore` (confidence-engine version: counts sweeps and
order blocks by direction only, 5 points each). -/
def calculateSMCScore (smcAnalysis : Option SMCAnalysis) : ℚ :=
  match smcAnalysis with
  | none => 50
  | some a =>
    let score : ℚ := 50
    let score :=
      if a.marketStructure = .BULLISH then score + 20
      else if a.marketStructure = .BEARISH then score - 20
      else score
    let score :=
      match a.bos with
      | some b => if b.type = .BULLISH_BOS then score + 15 else score - 15
      | none => score
    let score :=
      match a.choch with
      | some ch => if ch.type = .BULLISH_CHOCH then score + 20 else score - 20
      | none => score
    let bullishSweeps := (a.liquiditySweeps.filter (fun s => decide (s.type = .BULLISH))).length
    let bearishSweeps := (a.liquiditySweeps.filter (fun s => decide (s.type = .BEARISH))).length
    let score := score + (bullishSweeps : ℚ) * 5 - (bearishSweeps : ℚ) * 5
    let bullishOB := (a.orderBlocks.filter (fun ob => decide (ob.type = .BULLISH))).length
    let bearishOB := (a.orderBlocks.filter (fun ob => decide (ob.type = .BEARISH))).length
    let score := score + (bullishOB : ℚ) * 5 - (bearishOB : ℚ) * 5
    max 0 (min 100 score)

/-- `calculateMTFScore`. -/
def calculateMTFScore (mtfAnalysis : Option MTFAnalysis) : ℚ :=
  match mtfAnalysis with
  | none => 50
  | some m =>
    let baseScore := m.confidenceScore
    let alignmentBonus := (m.alignment - 50) * 0.5
    let score := baseScore + alignmentBonus
    let score :=
      if m.overallTrend = .STRONG_BULLISH then min 100 (score + 10)
      else if m.overallTrend = .STRONG_BEARISH then max 0 (score - 10)
      else score
    max 0 (min 100 score)

/-- `calculateOperatorScore`. -/
def calculateOperatorScore (operatorGame : Option OperatorSignal)
    (operatorStrength : Option OperatorStrength) : ℚ :=
  let score : ℚ := 50
  let score :=
    match operatorGame with
    | none => score
    | some og =>
      if og.action = .BUY then score + (if og.confidence = .HIGH then 30 else 20)
      else if og.action = .SELL then score - (if og.confidence = .HIGH then 30 else 20)
      else if og.action = .AVOID then 30
      else score
  let score :=
    match operatorStrength with
    | none => score
    | some os => score + (os.score - 50) * 0.4
  max 0 (min 100 score)

/-- `calculateVolumeScore`. -/
def calculateVolumeScore (candles : List Candle) : ℚ :=
  if candles.length < 10 then 50
  else
    let recent := takeLast 10 candles
    let avgVolume := (recent.map (·.volume)).sum / (recent.length : ℚ)
    let lastCandle := recent.getLast?.getD default
    let volumeRatio := lastCandle.volume / avgVolume
    let isBullish := lastCandle.close > lastCandle.open_
    let score : ℚ := 50
    let score :=
      if volumeRatio > 2 then score + (if isBullish then 30 else -30)
      else if volumeRatio > 1.5 then score + (if isBullish then 20 else -20)
      else if volumeRatio > 1.2 then score + (if isBullish then 10 else -10)
      else if volumeRatio < 0.7 then score - 10
      else score
    max 0 (min 100 score)

/-- `calculateMomentumScore`. -/
def calculateMomentumScore (candles : List Candle) (rsi : ℚ) : ℚ :=
  if candles.length < 5 then 50
  else
    let recent := takeLast 5 candles
    let priceChange := ((cget recent 4).close - (cget recent 0).close) / (cget recent 0).close * 100
    let score : ℚ := 50
    let score :=
      if priceChange > 3 then score + 30
      else if priceChange > 1.5 then score + 20
      else if priceChange > 0.5 then score + 10
      else if priceChange < -3 then score - 30
      else if priceChange < -1.5 then score - 20
      else if priceChange < -0.5 then score - 10
      else score
    let score :=
      if rsi > 60 ∧ priceChange > 0 then score + 10
      else if rsi < 40 ∧ priceChange < 0 then score - 10
      else score
    max 0 (min 100 score)

/-- `calculateVolatility`: log-return standard deviation of the last 20
bars, scaled by 2000 and capped at 100; below 20 bars it returns the
constant 50.  `Math.log` / `Math.sqrt` are modelled over `ℝ`. -/
noncomputable def calculateVolatility (candles : List Candle) : ℝ :=
  if candles.length < 20 then 50
  else
    let recent := takeLast 20 candles
    let returns := (List.range (recent.length - 1)).map (fun i =>
      Real.log (((cget recent (i + 1)).close : ℝ) / ((cget recent i).close : ℝ)))
    let mean := returns.sum / (returns.length : ℝ)
    let variance := (returns.map (fun r => (r - mean) ^ 2)).sum / (returns.length : ℝ)
    let stdDev := Real.sqrt variance
    min 100 (stdDev * 2000)

/-- The weighted overall confidence (`tradeConfidenceScore` local of
`calculateAIConfidence`). -/
def tradeConfidenceScore (candles : List Candle) (rsi : ℚ) (macdSignal : String)
    (technicalSignals : List TechnicalSignal) (operatorGame : Option OperatorSignal)
    (operatorStrength : Option OperatorStrength) (smcAnalysis : Option SMCAnalysis)
    (mtfAnalysis : Option MTFAnalysis) : ℤ :=
  jsRound
    (calculateTechnicalScore rsi macdSignal technicalSignals * COMPONENT_WEIGHTS.technical
      + calculateSMCScore smcAnalysis * COMPONENT_WEIGHTS.smc
      + calculateMTFScore mtfAnalysis * COMPONENT_WEIGHTS.mtf
      + calculateOperatorScore operatorGame operatorStrength * COMPONENT_WEIGHTS.operator
      + calculateVolumeScore candles * COMPONENT_WEIGHTS.volume
      + calculateMomentumScore candles rsi * COMPONENT_WEIGHTS.momentum)

/-- `normalizedScore` as a function of the computed confidence. -/
def normalizedScore (tc : ℤ) : ℚ := ((tc : ℚ) - 50) * 2

/-- `probabilityBullish` as computed on line 762 of the engine. -/
def probabilityBullish (tc : ℤ) : ℚ := max 0 (min 100 (50 + normalizedScore tc / 2))

/-- `probabilityBearish`. -/
def probabilityBearish (tc : ℤ) : ℚ := 100 - probabilityBullish tc

/-- `riskScore` as computed on line 767 of the engine:
`Math.round(100 - tradeConfidenceScore * 0.7 + volatility * 0.3)`,
with no clamping. -/
noncomputable def riskScore (candles : List Candle) (rsi : ℚ) (macdSignal : String)
    (technicalSignals : List TechnicalSignal) (operatorGame : Option OperatorSignal)
    (operatorStrength : Option OperatorStrength) (smcAnalysis : Option SMCAnalysis)
    (mtfAnalysis : Option MTFAnalysis) : ℤ :=
  jsRoundR (100 - (tradeConfidenceScore candles rsi macdSignal technicalSignals
      operatorGame operatorStrength smcAnalysis mtfAnalysis : ℝ) * 0.7
    + calculateVolatility candles * 0.3)

/-- `determineTimeHorizon`. -/
def determineTimeHorizon (mtfAnalysis : Option MTFAnalysis)
    (signalStrength : SignalStrength) : TimeHorizon :=
  match mtfAnalysis with
  | none => .INTRADAY
  | some m =>
    let htfAligned := m.timeframes.tf1D.trend = m.timeframes.tf4H.trend
    let ltfAligned := m.timeframes.tf15m.trend = m.timeframes.tf1H.trend
    if htfAligned ∧ signalStrength = .VERY_STRONG then .POSITIONAL
    else if htfAligned then .SWING
    else if ltfAligned then .INTRADAY
    else .SCALP

end AIEngine

/-! ## Concrete sample inputs used by witnesses and counterexamples -/

/-- A plain ten-bar series. -/
def sampleBars10 : List Candle :=
  (List.range 10).map (fun i => ⟨100, 110, 90, 105, 1000, (i : ℚ)⟩)

/-- A default timeframe signal with a chosen trend. -/
def tsWith (tf : TF) (t : TrendClass) : TimeframeSignal :=
  { MTF.getDefaultTimeframeSignal tf with trend := t }

/-- All-default six-resolution record. -/
def defaultTimeframes : MTFTimeframes :=
  ⟨MTF.getDefaultTimeframeSignal .m1, MTF.getDefaultTimeframeSignal .m5,
   MTF.getDefaultTimeframeSignal .m15, MTF.getDefaultTimeframeSignal .h1,
   MTF.getDefaultTimeframeSignal .h4, MTF.getDefaultTimeframeSignal .d1⟩

/-- Multi-horizon report in which the two lowest-weighted resolutions
(1m, 5m) agree while both the 1D/4H pair and the 15m/1H pair disagree. -/
def mtfLowAgree : MTFAnalysis :=
  { currentPrice := 0
    timeframes :=
      ⟨tsWith .m1 .BULLISH, tsWith .m5 .BULLISH, tsWith .m15 .BULLISH,
       tsWith .h1 .BEARISH, tsWith .h4 .BEARISH, tsWith .d1 .BULLISH⟩
    overallTrend := .NEUTRAL
    confidenceScore := 0
    alignment := 0
    recommendation := .HOLD }

/-- Multi-horizon report in which the 1D and 4H trends agree. -/
def mtfHighAgree : MTFAnalysis :=
  { currentPrice := 0
    timeframes :=
      ⟨tsWith .m1 .NEUTRAL, tsWith .m5 .NEUTRAL, tsWith .m15 .NEUTRAL,
       tsWith .h1 .NEUTRAL, tsWith .h4 .BULLISH, tsWith .d1 .BULLISH⟩
    overallTrend := .BULLISH
    confidenceScore := 50
    alignment := 50
    recommendation := .BUY }

/-- Scenario A bars: `bar1 {open:100, high:101, low:90, close:92}` and
`bar2 {open:90, high:106, low:89, close:105}`. -/
def bar1A : Candle := ⟨100, 101, 90, 92, 0, 0⟩

def bar2A : Candle := ⟨90, 106, 89, 105, 0, 0⟩

/-- An arbitrary well-formed leading bar for Scenario A. -/
def bar0A : Candle := ⟨100, 102, 98, 100, 0, 0⟩

/-- Two 1-hour bars (fewer than one 4-bar group). -/
def hourBar1 : Candle := ⟨100, 110, 95, 105, 1000, 1⟩

def hourBar2 : Candle := ⟨105, 120, 100, 115, 2000, 2⟩

/-- A bullish liquidity sweep and a bearish break of structure, giving
directional sums 15 and 20. -/
def sweepBull : LiquiditySweep := ⟨.BULLISH, 100, 0, .HIGH⟩

def bosBear : BreakOfStructure := ⟨.BEARISH_BOS, 90, 0, 95⟩

/-- Strong order blocks of each direction. -/
def obStrongBull : OrderBlock := ⟨.BULLISH, 110, 100, 0, .STRONG⟩

def obStrongBear : OrderBlock := ⟨.BEARISH, 110, 100, 0, .STRONG⟩

/-- Inputs driving every confidence-engine component score to its lowest
reachable value on an empty candle list (volume and momentum then default
to 50, volatility to 50). -/
def sigsBearish : List TechnicalSignal :=
  [⟨"Downtrend", .BEARISH, .STRONG⟩, ⟨"Double Top", .BEARISH, .STRONG⟩,
   ⟨"Support Breakdown", .BEARISH, .STRONG⟩]

def ogSell : OperatorSignal := ⟨.DISTRIBUTION, .HIGH, .SELL⟩

def osZero : OperatorStrength := ⟨0, "BEARISH"⟩

def smcBearishAll : SMCAnalysis :=
  { liquiditySweeps := []
    orderBlocks := []
    fairValueGaps := []
    marketStructure := .BEARISH
    bos := some ⟨.BEARISH_BOS, 0, 0, 0⟩
    choch := some ⟨.BEARISH_CHOCH, 0, 0, .HIGH⟩
    institutionalCandles := []
    supplyDemandZones := []
    overallConfidence := 0
    recommendation := .SELL }

def mtfBearishAll : MTFAnalysis :=
  { currentPrice := 0
    timeframes := defaultTimeframes
    overallTrend := .STRONG_BEARISH
    confidenceScore := 0
    alignment := 0
    recommendation := .STRONG_SELL }

/-! ## Helper lemmas -/

/-- The three trend buckets of `calculateAlignment` partition any trend
list. -/
theorem trend_buckets_partition (l : List TrendClass) :
    (l.filter (fun t => decide (t = .BULLISH) || decide (t = .STRONG_BULLISH))).length
      + (l.filter (fun t => decide (t = .BEARISH) || decide (t = .STRONG_BEARISH))).length
      + (l.filter (fun t => decide (t = .NEUTRAL))).length = l.length := by
  induction l with
  | nil => rfl
  | cons h t ih => cases h <;> simp [List.filter] <;> omega

/-- Rounded percentage of the dominant bucket out of six. -/
theorem jsRound_sixth_values (b s n : ℕ) (h : b + s + n = 6) :
    (jsRound (((max (max b s) n : ℕ) : ℚ) / 6 * 100) = 33 ∨
     jsRound (((max (max b s) n : ℕ) : ℚ) / 6 * 100) = 50 ∨
     jsRound (((max (max b s) n : ℕ) : ℚ) / 6 * 100) = 67 ∨
     jsRound (((max (max b s) n : ℕ) : ℚ) / 6 * 100) = 83 ∨
     jsRound (((max (max b s) n : ℕ) : ℚ) / 6 * 100) = 100) ∧
    33 ≤ jsRound (((max (max b s) n : ℕ) : ℚ) / 6 * 100) := by
  have h2 : 2 ≤ max (max b s) n := by omega
  have h6 : max (max b s) n ≤ 6 := by omega
  generalize max (max b s) n = M at h2 h6
  interval_cases M <;> refine ⟨?_, ?_⟩ <;> norm_num [jsRound]

/-- Index-wise group decomposition of the `aggregateTo4H` loop: output
bar `i` is the aggregate of input group `slice(4i, 4i + 4)`. -/
theorem aggregateTo4H_get (candles : List Candle) (i : ℕ) :
    (MTF.aggregateTo4H candles)[i]? = MTF.aggGroup ((candles.drop (4 * i)).take 4) := by
  induction candles using MTF.aggregateTo4H.induct generalizing i with
  | case1 =>
    simp [MTF.aggregateTo4H, MTF.aggGroup]
  | case2 a =>
    match i with
    | 0 => rfl
    | i + 1 =>
      have hd : List.drop (4 * (i + 1)) [a] = [] :=
        List.drop_eq_nil_of_le (by simp; omega)
      simp [MTF.aggregateTo4H, hd, MTF.aggGroup]
  | case3 a b =>
    match i with
    | 0 => rfl
    | i + 1 =>
      have hd : List.drop (4 * (i + 1)) [a, b] = [] :=
        List.drop_eq_nil_of_le (by simp; omega)
      simp [MTF.aggregateTo4H, hd, MTF.aggGroup]
  | case4 a b c =>
    match i with
    | 0 => rfl
    | i + 1 =>
      have hd : List.drop (4 * (i + 1)) [a, b, c] = [] :=
        List.drop_eq_nil_of_le (by simp; omega)
      simp [MTF.aggregateTo4H, hd, MTF.aggGroup]
  | case5 a b c d rest ih =>
    match i with
    | 0 => simp [MTF.aggregateTo4H, MTF.aggGroup]
    | i + 1 =>
      have h4 : 4 * (i + 1) = 4 * i + 1 + 1 + 1 + 1 := by ring
      rw [h4, List.drop_succ_cons, List.drop_succ_cons, List.drop_succ_cons,
        List.drop_succ_cons]
      simpa [MTF.aggregateTo4H] using ih i

/-- A verdict of the ordered detector list is exactly a verdict of the
first detector that fires, all earlier detectors staying silent. -/
theorem firstVerdict_some_iff (ds : List (List Candle → Option OperatorSignal))
    (c : List Candle) (v : OperatorSignal) :
    Operator.firstVerdict ds c = some v ↔
      ∃ i, i < ds.length ∧ (ds.getD i (fun _ => none)) c = some v ∧
        ∀ j < i, (ds.getD j (fun _ => none)) c = none := by
  induction ds with
  | nil => simp [Operator.firstVerdict]
  | cons d rest ih =>
    rw [Operator.firstVerdict]
    cases hd : d c with
    | some r =>
      simp only []
      constructor
      · intro h
        refine ⟨0, ?_, ?_, ?_⟩
        · simp
        · simpa [hd] using h
        · intro j hj
          exact absurd hj (Nat.not_lt_zero j)
      · rintro ⟨i, hi, hvi, hprior⟩
        cases i with
        | zero => simpa [hd] using hvi
        | succ n =>
          have := hprior 0 (by omega)
          simp [hd] at this
    | none =>
      simp only []
      rw [ih]
      constructor
      · rintro ⟨i, hi, hvi, hprior⟩
        refine ⟨i + 1, by simpa using Nat.succ_lt_succ hi, by simpa using hvi, ?_⟩
        intro j hj
        cases j with
        | zero => simpa using hd
        | succ m => simpa using hprior m (by omega)
      · rintro ⟨i, hi, hvi, hprior⟩
        cases i with
        | zero => simp [hd] at hvi
        | succ n =>
          exact ⟨n, by simpa using hi, by simpa using hvi,
            fun j hj => by simpa using hprior (j + 1) (by omega)⟩

/-! ## Claim theorems -/

/-- C1: at a concrete reachable input (empty candle list, RSI 35,
bearish MACD, three strong bearish patterns, a HIGH SELL operator
verdict with strength 0, all-bearish structure report, all-bearish
multi-horizon report) the engine's risk score evaluates to 109: the
code's `Math.round(100 - 0.7·confidence + 0.3·volatility)` has no clamp,
so the result exceeds both the clamped value 100 and the documented
`[0, 100]` range (the confidence is 8 and the volatility 50 here). -/
theorem riskScore_unclamped_exceeds_100 :
    AIEngine.riskScore [] 35 "BEARISH" sigsBearish (some ogSell) (some osZero)
      (some smcBearishAll) (some mtfBearishAll) = 109 ∧
    (100 : ℤ) < AIEngine.riskScore [] 35 "BEARISH" sigsBearish (some ogSell) (some osZero)
      (some smcBearishAll) (some mtfBearishAll) := by
  have h1 : AIEngine.calculateTechnicalScore 35 "BEARISH" sigsBearish = 0 := by
    norm_num +decide [AIEngine.calculateTechnicalScore, sigsBearish]
  have h2 : AIEngine.calculateSMCScore (some smcBearishAll) = 0 := by
    norm_num +decide [AIEngine.calculateSMCScore, smcBearishAll]
  have h3 : AIEngine.calculateMTFScore (some mtfBearishAll) = 0 := by
    norm_num +decide [AIEngine.calculateMTFScore, mtfBearishAll]
  have h4 : AIEngine.calculateOperatorScore (some ogSell) (some osZero) = 0 := by
    norm_num +decide [AIEngine.calculateOperatorScore, ogSell, osZero]
  have h5 : AIEngine.calculateVolumeScore [] = 50 := by
    norm_num [AIEngine.calculateVolumeScore]
  have h6 : AIEngine.calculateMomentumScore [] 35 = 50 := by
    norm_num [AIEngine.calculateMomentumScore]
  have htc : AIEngine.tradeConfidenceScore [] 35 "BEARISH" sigsBearish (some ogSell)
      (some osZero) (some smcBearishAll) (some mtfBearishAll) = 8 := by
    simp only [AIEngine.tradeConfidenceScore, h1, h2, h3, h4, h5, h6]
    norm_num [jsRound, AIEngine.COMPONENT_WEIGHTS]
  have hv : AIEngine.calculateVolatility [] = 50 := by
    simp [AIEngine.calculateVolatility]
  have h109 : AIEngine.riskScore [] 35 "BEARISH" sigsBearish (some ogSell) (some osZero)
      (some smcBearishAll) (some mtfBearishAll) = 109 := by
    unfold AIEngine.riskScore
    rw [htc, hv]
    norm_num [jsRoundR]
  exact ⟨h109, by rw [h109]; norm_num⟩

/-- C2: for every overall confidence, `probabilityBullish` equals
`clamp(50 + (confidence - 50), 0, 100)`, `probabilityBearish` is its
complement, and the two probabilities sum to exactly 100. -/
theorem probabilities_sum_to_100 (tc : ℤ) :
    AIEngine.probabilityBullish tc = max 0 (min 100 (50 + ((tc : ℚ) - 50))) ∧
    AIEngine.probabilityBearish tc = 100 - AIEngine.probabilityBullish tc ∧
    AIEngine.probabilityBullish tc + AIEngine.probabilityBearish tc = 100 := by
  refine ⟨?_, rfl, by unfold AIEngine.probabilityBearish; ring⟩
  unfold AIEngine.probabilityBullish AIEngine.normalizedScore
  ring_nf

/-- C3: on any series with fewer than 50 bars, `analyzeSMC` returns the
default report: RANGING structure, all event lists empty, no BOS or
CHOCH, zero confidence, HOLD recommendation. -/
theorem analyzeSMC_short_series_default (candles : List Candle)
    (h : candles.length < 50) :
    SMC.analyzeSMC candles = SMC.getDefaultAnalysis ∧
    (SMC.analyzeSMC candles).marketStructure = .RANGING ∧
    (SMC.analyzeSMC candles).liquiditySweeps = [] ∧
    (SMC.analyzeSMC candles).orderBlocks = [] ∧
    (SMC.analyzeSMC candles).fairValueGaps = [] ∧
    (SMC.analyzeSMC candles).institutionalCandles = [] ∧
    (SMC.analyzeSMC candles).supplyDemandZones = [] ∧
    (SMC.analyzeSMC candles).bos = none ∧
    (SMC.analyzeSMC candles).choch = none ∧
    (SMC.analyzeSMC candles).overallConfidence = 0 ∧
    (SMC.analyzeSMC candles).recommendation = .HOLD := by
  have hd : SMC.analyzeSMC candles = SMC.getDefaultAnalysis := by
    unfold SMC.analyzeSMC
    rw [if_pos h]
  rw [hd]
  exact ⟨rfl, rfl, rfl, rfl, rfl, rfl, rfl, rfl, rfl, rfl, rfl⟩

/-- Witness for C3 at the ten-bar sample series (Scenario D). -/
theorem analyzeSMC_short_series_default_witness :
    SMC.analyzeSMC sampleBars10 = SMC.getDefaultAnalysis :=
  (analyzeSMC_short_series_default sampleBars10 (by decide)).1

/-- C4: the manipulation detector returns `none` below ten bars, and on
ten or more bars it returns exactly the verdict of the first detector in
the accumulation, distribution, bull-trap, bear-trap, pump-and-dump,
fake-breakout, short-squeeze priority order whose activation predicate
fires, `none` when none fires; at most one verdict is possible because
the result is a single optional value. -/
theorem detectOperatorGame_priority (candles : List Candle) :
    (candles.length < 10 → Operator.detectOperatorGame candles = none) ∧
    (10 ≤ candles.length →
      Operator.detectOperatorGame candles
        = Operator.firstVerdict Operator.operatorDetectors candles ∧
      ∀ v, Operator.detectOperatorGame candles = some v ↔
        ∃ i, i < Operator.operatorDetectors.length ∧
          (Operator.operatorDetectors.getD i (fun _ => none)) candles = some v ∧
          ∀ j < i, (Operator.operatorDetectors.getD j (fun _ => none)) candles = none) := by
  constructor
  · intro h
    unfold Operator.detectOperatorGame
    rw [if_pos h]
  · intro h
    have heq : Operator.detectOperatorGame candles
        = Operator.firstVerdict Operator.operatorDetectors candles := by
      unfold Operator.detectOperatorGame
      rw [if_neg (by omega)]
      simp only [Operator.operatorDetectors]
      cases h1 : Operator.detectAccumulation candles <;>
        cases h2 : Operator.detectDistribution candles <;>
          cases h3 : Operator.detectBullTrap candles <;>
            cases h4 : Operator.detectBearTrap candles <;>
              cases h5 : Operator.detectPumpAndDump candles <;>
                cases h6 : Operator.detectFakeBreakout candles <;>
                  cases h7 : Operator.detectShortSqueeze candles <;>
                    simp [Operator.firstVerdict, h1, h2, h3, h4, h5, h6, h7]
    exact ⟨heq, fun v => heq ▸ firstVerdict_some_iff Operator.operatorDetectors candles v⟩

/-- Witness for C4: the short-series branch at an empty list and the
priority equation at a concrete ten-bar series. -/
theorem detectOperatorGame_priority_witness :
    Operator.detectOperatorGame [] = none ∧
    Operator.detectOperatorGame sampleBars10
      = Operator.firstVerdict Operator.operatorDetectors sampleBars10 :=
  ⟨(detectOperatorGame_priority []).1 (by decide),
   ((detectOperatorGame_priority sampleBars10).2 (by decide)).1⟩

/-- C5 counterexample: on a two-bar input (shorter than the grouping
factor 4) the resampler does not fail with `InsufficientData`; it
returns one aggregated bar built from the partial group. -/
theorem resample_short_input_no_failure :
    MTF.aggregateTo4H [hourBar1, hourBar2] = [⟨100, 120, 95, 115, 3000, 1⟩] ∧
    ([hourBar1, hourBar2] : List Candle).length < 4 := by
  constructor
  · norm_num [MTF.aggregateTo4H, MTF.aggChunk, hourBar1, hourBar2, Candle.mk.injEq]
  · decide

/-- C5 (amended): `aggregateTo4H` is total — output bar `i` exists iff
group `slice(4i, 4i+4)` is nonempty and is its aggregate, whose open is
the group's first open, close the group's last close, high/low the group
extrema and volume the group's volume sum; a series shorter than the
factor yields the aggregate of its single partial group rather than an
`InsufficientData` failure. -/
theorem resample_group_spec (candles : List Candle) :
    (∀ i : ℕ, (MTF.aggregateTo4H candles)[i]?
      = MTF.aggGroup ((candles.drop (4 * i)).take 4)) ∧
    (∀ (first : Candle) (rest : List Candle),
      MTF.aggGroup (first :: rest) = some
        { open_ := first.open_
          high := (rest.map (·.high)).foldl max first.high
          low := (rest.map (·.low)).foldl min first.low
          close := ((first :: rest).getLast (List.cons_ne_nil _ _)).close
          volume := ((first :: rest).map (·.volume)).sum
          timestamp := first.timestamp }) := by
  refine ⟨fun i => aggregateTo4H_get candles i, fun first rest => ?_⟩
  rcases rest with _ | ⟨r, rs⟩
  · simp [MTF.aggGroup, MTF.aggChunk]
  · simp [MTF.aggGroup, MTF.aggChunk, List.getLast_cons,
      List.getLast?_eq_getLast]

/-- C6 counterexample: in `mtfLowAgree` the two lowest-weighted
resolutions (1m, 5m) agree on trend while the 1D/4H and 15m/1H pairs
both disagree, and the code returns SCALP — not the INTRADAY required by
the claim's "two lowest-weighted resolutions agree" reading (the weight
chain shows 1m and 5m are indeed the two lowest-weighted). -/
theorem timeHorizon_lowest_pair_counterexample :
    AIEngine.determineTimeHorizon (some mtfLowAgree) .MODERATE = .SCALP ∧
    mtfLowAgree.timeframes.tf1m.trend = mtfLowAgree.timeframes.tf5m.trend ∧
    mtfLowAgree.timeframes.tf1D.trend ≠ mtfLowAgree.timeframes.tf4H.trend ∧
    (MTF.TIMEFRAME_WEIGHTS .m1 < MTF.TIMEFRAME_WEIGHTS .m5 ∧
     MTF.TIMEFRAME_WEIGHTS .m5 < MTF.TIMEFRAME_WEIGHTS .m15 ∧
     MTF.TIMEFRAME_WEIGHTS .m15 < MTF.TIMEFRAME_WEIGHTS .h1 ∧
     MTF.TIMEFRAME_WEIGHTS .h1 < MTF.TIMEFRAME_WEIGHTS .h4 ∧
     MTF.TIMEFRAME_WEIGHTS .h4 < MTF.TIMEFRAME_WEIGHTS .d1) ∧
    TimeHorizon.SCALP ≠ TimeHorizon.INTRADAY :=
  ⟨by decide, by decide, by decide, by norm_num [MTF.TIMEFRAME_WEIGHTS], by decide⟩

/-- C6 (amended): agreement of the two highest-weighted resolutions
(1D, 4H) yields POSITIONAL (for a VERY_STRONG signal) or SWING;
otherwise agreement of the 15m/1H pair — the third- and fourth-highest
weighted resolutions, not the two lowest — yields INTRADAY, else SCALP.
The final conjunct records the strictly increasing weight chain. -/
theorem determineTimeHorizon_pair_spec (m : MTFAnalysis) (ss : SignalStrength) :
    (m.timeframes.tf1D.trend = m.timeframes.tf4H.trend →
      AIEngine.determineTimeHorizon (some m) ss
        = (if ss = .VERY_STRONG then .POSITIONAL else .SWING)) ∧
    (m.timeframes.tf1D.trend ≠ m.timeframes.tf4H.trend →
      m.timeframes.tf15m.trend = m.timeframes.tf1H.trend →
      AIEngine.determineTimeHorizon (some m) ss = .INTRADAY) ∧
    (m.timeframes.tf1D.trend ≠ m.timeframes.tf4H.trend →
      m.timeframes.tf15m.trend ≠ m.timeframes.tf1H.trend →
      AIEngine.determineTimeHorizon (some m) ss = .SCALP) ∧
    (MTF.TIMEFRAME_WEIGHTS .m1 < MTF.TIMEFRAME_WEIGHTS .m5 ∧
     MTF.TIMEFRAME_WEIGHTS .m5 < MTF.TIMEFRAME_WEIGHTS .m15 ∧
     MTF.TIMEFRAME_WEIGHTS .m15 < MTF.TIMEFRAME_WEIGHTS .h1 ∧
     MTF.TIMEFRAME_WEIGHTS .h1 < MTF.TIMEFRAME_WEIGHTS .h4 ∧
     MTF.TIMEFRAME_WEIGHTS .h4 < MTF.TIMEFRAME_WEIGHTS .d1) := by
  refine ⟨?_, ?_, ?_, by norm_num [MTF.TIMEFRAME_WEIGHTS]⟩
  · intro h
    by_cases hss : ss = .VERY_STRONG <;>
      simp [AIEngine.determineTimeHorizon, h, hss]
  · intro h1 h2
    simp [AIEngine.determineTimeHorizon, h1, h2]
  · intro h1 h2
    simp [AIEngine.determineTimeHorizon, h1, h2]

/-- Witness for C6's amended theorem on a report whose 1D/4H pair
agrees. -/
theorem determineTimeHorizon_pair_spec_witness :
    AIEngine.determineTimeHorizon (some mtfHighAgree) .VERY_STRONG
      = (if (SignalStrength.VERY_STRONG = SignalStrength.VERY_STRONG)
          then TimeHorizon.POSITIONAL else TimeHorizon.SWING) :=
  (determineTimeHorizon_pair_spec mtfHighAgree .VERY_STRONG).1 rfl

/-- C7 counterexample: the candlestick detector requires at least three
bars, so on exactly the two scenario bars it reports nothing at all. -/
theorem two_bar_series_reports_nothing :
    TA.detectCandlestickPatterns [bar1A, bar2A] = [] := by decide

/-- C7 (amended): any series of at least three bars whose last two bars
are the scenario bars reports the `Bullish Engulfing` BULLISH/STRONG
signal. -/
theorem bullish_engulfing_reported (candles : List Candle) (h3 : 3 ≤ candles.length)
    (hprev : cget candles (candles.length - 2) = bar1A)
    (hcur : cget candles (candles.length - 1) = bar2A) :
    (⟨"Bullish Engulfing", .BULLISH, .STRONG⟩ : TechnicalSignal)
      ∈ TA.detectCandlestickPatterns candles := by
  have hbe : TA.isBullishEngulfing bar1A bar2A := by decide
  unfold TA.detectCandlestickPatterns
  rw [if_neg (by omega)]
  simp only [hprev, hcur]
  exact List.mem_append_left _ (List.mem_append_left _ (List.mem_append_left _
    (List.mem_append_left _ (List.mem_append_left _ (List.mem_append_left _
    (List.mem_append_left _ (List.mem_append_left _
      (by rw [if_pos hbe]; exact List.mem_singleton_self _))))))))

/-- Witness for C7's amended theorem on a concrete three-bar series. -/
theorem bullish_engulfing_reported_witness :
    (⟨"Bullish Engulfing", .BULLISH, .STRONG⟩ : TechnicalSignal)
      ∈ TA.detectCandlestickPatterns [bar0A, bar1A, bar2A] :=
  bullish_engulfing_reported [bar0A, bar1A, bar2A] (by decide) (by decide) (by decide)

/-- C8: adding one more strong order block of a direction to the
order-block list never decreases the Structure Detector's directional
score for that direction (it adds exactly 20). -/
theorem smc_directional_score_strong_ob_monotone (sweeps : List LiquiditySweep)
    (obs : List OrderBlock) (fvgs : List FairValueGap) (ms : MarketStructure)
    (bos : Option BreakOfStructure) (choch : Option ChangeOfCharacter)
    (inst : List InstitutionalCandle) (ob : OrderBlock) (hstr : ob.strength = .STRONG) :
    (ob.type = .BULLISH →
      SMC.bullishScoreOf sweeps (ob :: obs) fvgs ms bos choch inst
        = SMC.bullishScoreOf sweeps obs fvgs ms bos choch inst + 20 ∧
      SMC.bullishScoreOf sweeps obs fvgs ms bos choch inst
        ≤ SMC.bullishScoreOf sweeps (ob :: obs) fvgs ms bos choch inst) ∧
    (ob.type = .BEARISH →
      SMC.bearishScoreOf sweeps (ob :: obs) fvgs ms bos choch inst
        = SMC.bearishScoreOf sweeps obs fvgs ms bos choch inst + 20 ∧
      SMC.bearishScoreOf sweeps obs fvgs ms bos choch inst
        ≤ SMC.bearishScoreOf sweeps (ob :: obs) fvgs ms bos choch inst) := by
  refine ⟨fun hdir => ?_, fun hdir => ?_⟩
  · have h_eq : SMC.bullishScoreOf sweeps (ob :: obs) fvgs ms bos choch inst
        = SMC.bullishScoreOf sweeps obs fvgs ms bos choch inst + 20 := by
      unfold SMC.bullishScoreOf
      rw [List.filter_cons_of_pos (by simp [hdir, hstr])]
      push_cast [List.length_cons]
      ring
    exact ⟨h_eq, by rw [h_eq]; linarith⟩
  · have h_eq : SMC.bearishScoreOf sweeps (ob :: obs) fvgs ms bos choch inst
        = SMC.bearishScoreOf sweeps obs fvgs ms bos choch inst + 20 := by
      unfold SMC.bearishScoreOf
      rw [List.filter_cons_of_pos (by simp [hdir, hstr])]
      push_cast [List.length_cons]
      ring
    exact ⟨h_eq, by rw [h_eq]; linarith⟩

/-- Witness for C8 with one concrete strong bullish order block. -/
theorem smc_directional_score_strong_ob_monotone_witness :
    SMC.bullishScoreOf [] [obStrongBull] [] .RANGING none none []
      = SMC.bullishScoreOf [] [] [] .RANGING none none [] + 20 :=
  ((smc_directional_score_strong_ob_monotone [] [] [] .RANGING none none []
    obStrongBull rfl).1 rfl).1

/-- C9 counterexample: with one bullish sweep (sum 15) and a bearish BOS
(sum 20) the code's confidence is the rounded value 57, not the exact
ratio `max/total × 100 = 400/7` the claim states. -/
theorem smc_confidence_rounding_counterexample :
    (SMC.calculateSMCScore [sweepBull] [] [] .RANGING (some bosBear) none [] []).confidence = 57 ∧
    ((SMC.calculateSMCScore [sweepBull] [] [] .RANGING (some bosBear) none [] []).confidence : ℚ)
      ≠ min 100 (max (SMC.bullishScoreOf [sweepBull] [] [] .RANGING (some bosBear) none [])
          (SMC.bearishScoreOf [sweepBull] [] [] .RANGING (some bosBear) none [])
        / (SMC.bullishScoreOf [sweepBull] [] [] .RANGING (some bosBear) none []
           + SMC.bearishScoreOf [sweepBull] [] [] .RANGING (some bosBear) none []) * 100) := by
  have hb : SMC.bullishScoreOf [sweepBull] [] [] .RANGING (some bosBear) none [] = 15 := by
    norm_num +decide [SMC.bullishScoreOf, sweepBull, bosBear]
  have hs : SMC.bearishScoreOf [sweepBull] [] [] .RANGING (some bosBear) none [] = 20 := by
    norm_num +decide [SMC.bearishScoreOf, sweepBull, bosBear]
  have hc : (SMC.calculateSMCScore [sweepBull] [] [] .RANGING (some bosBear) none [] []).confidence
      = 57 := by
    simp only [SMC.calculateSMCScore, hb, hs]
    norm_num [jsRound]
  refine ⟨hc, ?_⟩
  rw [hc, hb, hs]
  norm_num

/-- Nonnegativity of the bullish accumulator of `calculateSMCScore`. -/
theorem bullishScoreOf_nonneg (sweeps : List LiquiditySweep) (obs : List OrderBlock)
    (fvgs : List FairValueGap) (ms : MarketStructure) (bos : Option BreakOfStructure)
    (choch : Option ChangeOfCharacter) (inst : List InstitutionalCandle) :
    0 ≤ SMC.bullishScoreOf sweeps obs fvgs ms bos choch inst := by
  unfold SMC.bullishScoreOf
  refine add_nonneg (add_nonneg (add_nonneg (add_nonneg (add_nonneg
    (add_nonneg ?_ ?_) ?_) ?_) ?_) ?_) ?_
  · positivity
  · positivity
  · positivity
  · split_ifs <;> norm_num
  · rcases bos with _ | b
    · norm_num
    · show (0:ℚ) ≤ if b.type = BOSType.BULLISH_BOS then 20 else 0
      split_ifs <;> norm_num
  · rcases choch with _ | ch
    · norm_num
    · show (0:ℚ) ≤ if ch.type = CHOCHType.BULLISH_CHOCH then 25 else 0
      split_ifs <;> norm_num
  · positivity

/-- Nonnegativity of the bearish accumulator of `calculateSMCScore`. -/
theorem bearishScoreOf_nonneg (sweeps : List LiquiditySweep) (obs : List OrderBlock)
    (fvgs : List FairValueGap) (ms : MarketStructure) (bos : Option BreakOfStructure)
    (choch : Option ChangeOfCharacter) (inst : List InstitutionalCandle) :
    0 ≤ SMC.bearishScoreOf sweeps obs fvgs ms bos choch inst := by
  unfold SMC.bearishScoreOf
  refine add_nonneg (add_nonneg (add_nonneg (add_nonneg (add_nonneg
    (add_nonneg ?_ ?_) ?_) ?_) ?_) ?_) ?_
  · positivity
  · positivity
  · positivity
  · split_ifs <;> norm_num
  · rcases bos with _ | b
    · norm_num
    · show (0:ℚ) ≤ if b.type = BOSType.BEARISH_BOS then 20 else 0
      split_ifs <;> norm_num
  · rcases choch with _ | ch
    · norm_num
    · show (0:ℚ) ≤ if ch.type = CHOCHType.BEARISH_CHOCH then 25 else 0
      split_ifs <;> norm_num
  · positivity

/-- C9 (amended): the structure detector's confidence is the rounded,
100-capped percentage `min(100, round(max/total × 100))` whenever the
directional total is nonzero, is exactly 0 when both directional sums
are 0 (the `totalScore || 1` guard), and always lies in `[0, 100]` —
the computation is total. -/
theorem smc_confidence_guarded_total (sweeps : List LiquiditySweep)
    (obs : List OrderBlock) (fvgs : List FairValueGap) (ms : MarketStructure)
    (bos : Option BreakOfStructure) (choch : Option ChangeOfCharacter)
    (inst : List InstitutionalCandle) (zones : List SupplyDemandZone) :
    (SMC.bullishScoreOf sweeps obs fvgs ms bos choch inst
        + SMC.bearishScoreOf sweeps obs fvgs ms bos choch inst = 0 →
      (SMC.calculateSMCScore sweeps obs fvgs ms bos choch inst zones).confidence = 0) ∧
    (SMC.bullishScoreOf sweeps obs fvgs ms bos choch inst
        + SMC.bearishScoreOf sweeps obs fvgs ms bos choch inst ≠ 0 →
      (SMC.calculateSMCScore sweeps obs fvgs ms bos choch inst zones).confidence
        = min 100 (jsRound (max (SMC.bullishScoreOf sweeps obs fvgs ms bos choch inst)
            (SMC.bearishScoreOf sweeps obs fvgs ms bos choch inst)
          / (SMC.bullishScoreOf sweeps obs fvgs ms bos choch inst
             + SMC.bearishScoreOf sweeps obs fvgs ms bos choch inst) * 100))) ∧
    0 ≤ (SMC.calculateSMCScore sweeps obs fvgs ms bos choch inst zones).confidence ∧
    (SMC.calculateSMCScore sweeps obs fvgs ms bos choch inst zones).confidence ≤ 100 := by
  have hb := bullishScoreOf_nonneg sweeps obs fvgs ms bos choch inst
  have hs := bearishScoreOf_nonneg sweeps obs fvgs ms bos choch inst
  simp only [SMC.calculateSMCScore]
  refine ⟨?_, ?_, ?_, ?_⟩
  · intro h
    have hb0 : SMC.bullishScoreOf sweeps obs fvgs ms bos choch inst = 0 := by linarith
    have hs0 : SMC.bearishScoreOf sweeps obs fvgs ms bos choch inst = 0 := by linarith
    rw [if_pos h, hb0, hs0]
    norm_num [jsRound]
  · intro h
    rw [if_neg h]
  · refine le_min (by norm_num) ?_
    have hx : (0:ℚ) ≤ max (SMC.bullishScoreOf sweeps obs fvgs ms bos choch inst)
        (SMC.bearishScoreOf sweeps obs fvgs ms bos choch inst)
      / (if SMC.bullishScoreOf sweeps obs fvgs ms bos choch inst
            + SMC.bearishScoreOf sweeps obs fvgs ms bos choch inst = 0 then 1
         else SMC.bullishScoreOf sweeps obs fvgs ms bos choch inst
            + SMC.bearishScoreOf sweeps obs fvgs ms bos choch inst) * 100 := by
      apply mul_nonneg _ (by norm_num)
      apply div_nonneg (le_max_iff.mpr (Or.inl hb))
      split_ifs with h
      · norm_num
      · linarith
    unfold jsRound
    exact Int.floor_nonneg.mpr (by linarith)
  · exact min_le_left _ _

/-- Witness for C9's amended theorem: empty evidence gives both sums 0
and confidence 0. -/
theorem smc_confidence_guarded_total_witness :
    (SMC.calculateSMCScore [] [] [] .RANGING none none [] []).confidence = 0 :=
  (smc_confidence_guarded_total [] [] [] .RANGING none none [] []).1
    (by norm_num +decide [SMC.bullishScoreOf, SMC.bearishScoreOf])

/-- C10: the alignment percentage is always one of 33, 50, 67, 83, 100,
and in particular never below 33, because the bullish/bearish/neutral
counts partition the six resolutions and their maximum is at least 2. -/
theorem alignment_quantized (tfs : MTFTimeframes) :
    (MTF.calculateAlignment tfs = 33 ∨ MTF.calculateAlignment tfs = 50 ∨
     MTF.calculateAlignment tfs = 67 ∨ MTF.calculateAlignment tfs = 83 ∨
     MTF.calculateAlignment tfs = 100) ∧
    33 ≤ MTF.calculateAlignment tfs := by
  have hpart := trend_buckets_partition (MTF.trendsOf tfs)
  have hlen : (MTF.trendsOf tfs).length = 6 := rfl
  rw [hlen] at hpart
  have := jsRound_sixth_values _ _ _ hpart
  simpa [MTF.calculateAlignment, hlen] using this

end IndianMarket
